import Mathlib

/-!
Verification development for the Root (metadata-leader) subsystem of the
engula server, embedded from `src/server/src/root/mod.rs`.  The sibling
modules `schema.rs`, `store.rs` and `watch.rs` are not part of the sources;
the definitions that stand for them are modelled from the specification and
say so in their doc comments.  Everything in `namespace Root` is a direct
shallow embedding of the Rust code in `mod.rs`: the shared
`core: Mutex<Option<RootCore>>` becomes an explicit `Option Schema` value
threaded through each operation, async calls become pure functions whose
store/consensus outcomes are supplied as explicit environment parameters,
and fallible Rust functions return `Except Error`.
-/

namespace Engula

/-- Descriptor of a database (`engula_api::v1::DatabaseDesc`): `{id, name}`. -/
structure DatabaseDesc where
  id : Nat
  name : String
deriving DecidableEq, Repr

/-- Descriptor of a collection (`engula_api::v1::CollectionDesc`):
`{id, name, parent_id}` where `parent_id` references the database. -/
structure CollectionDesc where
  id : Nat
  name : String
  parent_id : Nat
deriving DecidableEq, Repr

/-- Descriptor of a cluster node (`engula_api::server::v1::NodeDesc`):
`{id, addr}`. -/
structure NodeDesc where
  id : Nat
  addr : String
deriving DecidableEq, Repr

/-- Descriptor of a replication group; `id` is the stable key and `epoch`
its version, other payload is abstracted into `payload`. -/
structure GroupDesc where
  id : Nat
  epoch : Nat
  payload : Nat
deriving DecidableEq, Repr

/-- Per-replica state of a replication group; keyed by `group_id`, the rest
of the per-replica status is abstracted into `payload`. -/
structure ReplicaState where
  group_id : Nat
  payload : Nat
deriving DecidableEq, Repr

/-- Error taxonomy of the Root subsystem (`crate::Error`), restricted to the
variants `mod.rs` constructs or matches on; every other store/IO-class error
is represented by `Internal`. -/
inductive Error where
  | NotRootLeader
  | NotLeader
  | DatabaseNotFound (name : String)
  | AlreadyExists (name : String)
  | Internal (msg : String)
deriving DecidableEq, Repr

/-- Payload of an update event
(`watch_response::update_event::Event`): tagged union over the five
descriptor kinds. -/
inductive UpdateEventKind where
  | Database (desc : DatabaseDesc)
  | Collection (desc : CollectionDesc)
  | Node (desc : NodeDesc)
  | Group (desc : GroupDesc)
  | GroupState (state : ReplicaState)
deriving DecidableEq, Repr

/-- An update event (`watch_response::UpdateEvent`); the Rust message wraps
the payload in an `Option`, and `mod.rs` always fills it with `Some`. -/
structure UpdateEvent where
  event : Option UpdateEventKind
deriving DecidableEq, Repr

/-- Payload of a delete event (`watch_response::delete_event::Event`):
the removed entity's id. -/
inductive DeleteEventKind where
  | Database (id : Nat)
  | Collection (id : Nat)
deriving DecidableEq, Repr

/-- A delete event (`watch_response::DeleteEvent`). -/
structure DeleteEvent where
  event : Option DeleteEventKind
deriving DecidableEq, Repr

/-- A batch of updates for one group in a `report` request
(`report_request::GroupUpdates`): an optional new `GroupDesc` and/or an
optional new `ReplicaState`. -/
structure GroupUpdates where
  group_desc : Option GroupDesc
  replica_state : Option ReplicaState
deriving DecidableEq, Repr

/-- Modelled from the spec: the `Schema` metadata layer
(`src/server/src/root/schema.rs`, not among the sources).  Per the spec it is
a "structured metadata-CRUD layer over a replicated key-value store
(databases, collections, nodes, groups, events)" that "assigns unique ids to
new entities"; `next_id` is the id allocator, `cluster_id` is the opaque
identifier "set exactly once at bootstrap", and `root_replicas` backs
`get_root_replicas`. -/
structure Schema where
  databases : List DatabaseDesc
  collections : List CollectionDesc
  nodes : List NodeDesc
  groups : List GroupDesc
  group_states : List ReplicaState
  next_id : Nat
  cluster_id : Option (List Nat)
  root_replicas : List NodeDesc
deriving DecidableEq, Repr

namespace Schema

/-- Modelled from the spec: `Schema::get_database`; "Get operations return
an absent-value result rather than failing" — lookup by name. -/
def get_database (s : Schema) (name : String) : Option DatabaseDesc :=
  s.databases.find? (fun d => d.name = name)

/-- Modelled from the spec: `Schema::create_database`; assigns a unique id
and "Create operations fail on uniqueness violation within their scope". -/
def create_database (s : Schema) (desc : DatabaseDesc) :
    Except Error (DatabaseDesc × Schema) :=
  match s.get_database desc.name with
  | some _ => .error (.AlreadyExists desc.name)
  | none =>
    let d : DatabaseDesc := { id := s.next_id, name := desc.name }
    .ok (d, { s with databases := s.databases ++ [d], next_id := s.next_id + 1 })

/-- Modelled from the spec: `Schema::delete_database`; returns the id of the
deleted database, and per the error taxonomy a missing target resource is a
NotFound-class failure (`DatabaseNotFound`). -/
def delete_database (s : Schema) (name : String) : Except Error (Nat × Schema) :=
  match s.get_database name with
  | none => .error (.DatabaseNotFound name)
  | some d =>
    .ok (d.id, { s with databases := s.databases.filter (fun x => x.name ≠ name) })

/-- Modelled from the spec: `Schema::get_collection`; absent-value result,
looking the collection up by database name and collection name via the
parent database's id. -/
def get_collection (s : Schema) (database : String) (name : String) :
    Option CollectionDesc :=
  match s.get_database database with
  | none => none
  | some db => s.collections.find? (fun c => c.parent_id = db.id ∧ c.name = name)

/-- Modelled from the spec: `Schema::create_collection`; assigns a unique id,
unique by (database, name) within its scope. -/
def create_collection (s : Schema) (desc : CollectionDesc) :
    Except Error (CollectionDesc × Schema) :=
  match s.collections.find? (fun c => c.parent_id = desc.parent_id ∧ c.name = desc.name) with
  | some _ => .error (.AlreadyExists desc.name)
  | none =>
    let c : CollectionDesc :=
      { id := s.next_id, name := desc.name, parent_id := desc.parent_id }
    .ok (c, { s with collections := s.collections ++ [c], next_id := s.next_id + 1 })

/-- Modelled from the spec: `Schema::delete_collection`; removes the given
collection. -/
def delete_collection (s : Schema) (c : CollectionDesc) : Schema :=
  { s with collections := s.collections.filter (fun x => x.id ≠ c.id) }

/-- Modelled from the spec: `Schema::add_node`; registers a node, assigning
it a fresh unique id. -/
def add_node (s : Schema) (desc : NodeDesc) : NodeDesc × Schema :=
  let n : NodeDesc := { id := s.next_id, addr := desc.addr }
  (n, { s with nodes := s.nodes ++ [n], next_id := s.next_id + 1 })

/-- Modelled from the spec: `Schema::update_group_replica`; stores the
supplied group descriptor and/or replica state, replacing any previous entry
with the same key (group id). -/
def update_group_replica (s : Schema) (gd : Option GroupDesc)
    (rs : Option ReplicaState) : Schema :=
  let s1 :=
    match gd with
    | none => s
    | some d =>
      { s with groups := (s.groups.filter (fun g => g.id ≠ d.id)) ++ [d] }
  match rs with
  | none => s1
  | some st =>
    { s1 with group_states :=
        (s1.group_states.filter (fun x => x.group_id ≠ st.group_id)) ++ [st] }

/-- Modelled from the spec: `Schema::list_group_state`; full listing of all
stored group states. -/
def list_group_state (s : Schema) : List ReplicaState :=
  s.group_states

/-- Modelled from the spec: `Schema::get_root_replicas`; the list of
root-group replica nodes. -/
def get_root_replicas (s : Schema) : List NodeDesc :=
  s.root_replicas

/-- Modelled from the spec: `ReplicaNodes::move_first` (`schema.rs`): the
entry with the given node id, if present, is moved to the front of the
list. -/
def move_first (l : List NodeDesc) (id : Nat) : List NodeDesc :=
  match l.find? (fun n => n.id = id) with
  | none => l
  | some n => n :: l.filter (fun x => x.id ≠ id)

/-- Modelled from the spec: `Schema::list_all_events`; "computes a snapshot
diff of current metadata against the caller-supplied mapping of group id →
last-observed epoch": all databases, collections and nodes, the groups whose
epoch differs from the caller's last-observed epoch, and all group states. -/
def list_all_events (s : Schema) (cur_groups : List (Nat × Nat)) :
    List UpdateEvent × List DeleteEvent :=
  let ups : List UpdateEvent :=
    (s.databases.map (fun d => ⟨some (.Database d)⟩))
      ++ (s.collections.map (fun c => ⟨some (.Collection c)⟩))
      ++ (s.nodes.map (fun n => ⟨some (.Node n)⟩))
      ++ ((s.groups.filter
            (fun g => (cur_groups.lookup g.id).getD 0 ≠ g.epoch)).map
            (fun g => ⟨some (.Group g)⟩))
      ++ (s.group_states.map (fun st => ⟨some (.GroupState st)⟩))
  (ups, [])

end Schema

/-- Modelled from the spec: the `WatchHub` pub/sub broker
(`src/server/src/root/watch.rs`, not among the sources).  Each registered
watcher owns an independent buffer; `queues[i]` is the ordered sequence of
event batches delivered to watcher `i` (a batch is an update-event list
paired with a delete-event list). -/
structure WatchHub where
  queues : List (List (List UpdateEvent × List DeleteEvent))
deriving DecidableEq, Repr

namespace WatchHub

/-- Modelled from the spec: `WatchHub::create_watcher`; registers a new
watcher with an empty buffer and returns its index, so that "events
published after this call returns are guaranteed visible to the new
watcher". -/
def create_watcher (h : WatchHub) : WatchHub × Nat :=
  ({ queues := h.queues ++ [[]] }, h.queues.length)

/-- Modelled from the spec: `WatchHub::notify_updates`; broadcasts the batch
"to every currently registered watcher", appending it to each watcher's own
buffer. -/
def notify_updates (h : WatchHub) (batch : List UpdateEvent) : WatchHub :=
  { queues := h.queues.map (fun q => q ++ [(batch, [])]) }

/-- Modelled from the spec: `WatchHub::notify_deletes`; same broadcast for a
batch of delete events. -/
def notify_deletes (h : WatchHub) (batch : List DeleteEvent) : WatchHub :=
  { queues := h.queues.map (fun q => q ++ [([], batch)]) }

/-- One externally triggered hub operation: registering a watcher or
publishing a batch of update events. -/
inductive Op where
  | create
  | notify (batch : List UpdateEvent)
deriving DecidableEq, Repr

/-- Run a sequence of hub operations. -/
def runOps (h : WatchHub) : List Op → WatchHub
  | [] => h
  | .create :: rest => runOps (h.create_watcher).1 rest
  | .notify b :: rest => runOps (h.notify_updates b) rest

/-- The update-event batches published by a sequence of operations, in
publication order. -/
def published (ops : List Op) : List (List UpdateEvent × List DeleteEvent) :=
  ops.filterMap (fun op => match op with
    | .create => none
    | .notify b => some (b, []))

end WatchHub

namespace Root

/-- Embedding of `Root::schema` (mod.rs lines 97-102): returns the schema
held by the installed `RootCore`, or `Error::NotRootLeader` when the shared
core option is `None`. -/
def schema (core : Option Schema) : Except Error Schema :=
  match core with
  | some s => .ok s
  | none => .error .NotRootLeader

/-- Embedding of `Root::create_database` (mod.rs lines 184-198): fetch the
schema, create the database, then push a `Database` update event; returns
the result together with the new core state and the update events pushed to
the watcher hub. -/
def create_database (core : Option Schema) (name : String) :
    Except Error DatabaseDesc × Option Schema × List UpdateEvent :=
  match schema core with
  | .error e => (.error e, core, [])
  | .ok s =>
    match s.create_database { id := 0, name := name } with
    | .error e => (.error e, core, [])
    | .ok (desc, s1) => (.ok desc, some s1, [⟨some (.Database desc)⟩])

/-- Embedding of `Root::delete_database` (mod.rs lines 200-208): fetch the
schema, delete the database, then unconditionally push a `Database` delete
event carrying the returned id. -/
def delete_database (core : Option Schema) (name : String) :
    Except Error Unit × Option Schema × List DeleteEvent :=
  match schema core with
  | .error e => (.error e, core, [])
  | .ok s =>
    match s.delete_database name with
    | .error e => (.error e, core, [])
    | .ok (id, s1) => (.ok (), some s1, [⟨some (.Database id)⟩])

/-- Embedding of `Root::create_collection` (mod.rs lines 210-233): fetch the
schema, fail with `DatabaseNotFound` when the parent database is absent,
otherwise create the collection under the parent's id and push a
`Collection` update event. -/
def create_collection (core : Option Schema) (name : String) (database : String) :
    Except Error CollectionDesc × Option Schema × List UpdateEvent :=
  match schema core with
  | .error e => (.error e, core, [])
  | .ok s =>
    match s.get_database database with
    | none => (.error (.DatabaseNotFound database), core, [])
    | some db =>
      match s.create_collection { id := 0, name := name, parent_id := db.id } with
      | .error e => (.error e, core, [])
      | .ok (desc, s1) => (.ok desc, some s1, [⟨some (.Collection desc)⟩])

/-- Embedding of `Root::delete_collection` (mod.rs lines 235-248): fetch the
schema and look the collection up; when present, delete it and push a
`Collection` delete event; when absent, return success having done
nothing. -/
def delete_collection (core : Option Schema) (name : String) (database : String) :
    Except Error Unit × Option Schema × List DeleteEvent :=
  match schema core with
  | .error e => (.error e, core, [])
  | .ok s =>
    match s.get_collection database name with
    | none => (.ok (), core, [])
    | some c =>
      (.ok (), some (s.delete_collection c), [⟨some (.Collection c.id)⟩])

/-- Embedding of `Root::get_database` (mod.rs lines 250-252). -/
def get_database (core : Option Schema) (name : String) :
    Except Error (Option DatabaseDesc) :=
  match schema core with
  | .error e => .error e
  | .ok s => .ok (s.get_database name)

/-- Embedding of `Root::get_collection` (mod.rs lines 254-260). -/
def get_collection (core : Option Schema) (name : String) (database : String) :
    Except Error (Option CollectionDesc) :=
  match schema core with
  | .error e => .error e
  | .ok s => .ok (s.get_collection database name)

/-- Embedding of `Root::watch` (mod.rs lines 262-273): fetch the schema
(failing before any hub interaction when no core is installed), create a
watcher on the hub, seed its initializer with the snapshot from
`list_all_events`, and return it; the result is the watcher index with its
initial snapshot, together with the new hub state. -/
def watch (core : Option Schema) (hub : WatchHub) (cur_groups : List (Nat × Nat)) :
    Except Error (Nat × List UpdateEvent × List DeleteEvent) × WatchHub :=
  match schema core with
  | .error e => (.error e, hub)
  | .ok s =>
    let (hub1, idx) := hub.create_watcher
    let (ups, dels) := s.list_all_events cur_groups
    (.ok (idx, ups, dels), hub1)

/-- Outcome of `Root::join`: success, an error, or a process panic (the
embedding of a Rust `unwrap` on `None`). -/
inductive JoinOut where
  | ok (cluster_id : List Nat) (node : NodeDesc) (roots : List NodeDesc)
  | err (e : Error)
  | panic
deriving DecidableEq, Repr

/-- Embedding of `Root::join` (mod.rs lines 275-293): fetch the schema, add
a node for the given address, push a `Node` update event, then read the
cluster id — `schema.cluster_id().await?.unwrap()` panics when the stored
cluster id is absent — and return it with the new node descriptor and the
root replicas reordered by `move_first(node.id)`. -/
def join (core : Option Schema) (addr : String) :
    JoinOut × Option Schema × List UpdateEvent :=
  match schema core with
  | .error e => (.err e, core, [])
  | .ok s =>
    let (node, s1) := s.add_node { id := 0, addr := addr }
    let events : List UpdateEvent := [⟨some (.Node node)⟩]
    match s1.cluster_id with
    | none => (.panic, some s1, events)
    | some cid =>
      (.ok cid node (Schema.move_first s1.get_root_replicas node.id), some s1, events)

/-- One iteration of the `for u in updates` loop in `Root::report` (mod.rs
lines 299-314): apply `update_group_replica`, push a `Group` update event
when a group descriptor is present, and record the group id in
`changed_group_states` when a replica state is present.  The accumulator is
(schema, update_events, changed_group_states). -/
def report_step (acc : Schema × List UpdateEvent × List Nat) (u : GroupUpdates) :
    Schema × List UpdateEvent × List Nat :=
  let s1 := acc.1.update_group_replica u.group_desc u.replica_state
  let evs :=
    match u.group_desc with
    | some d => acc.2.1 ++ [⟨some (.Group d)⟩]
    | none => acc.2.1
  let changed :=
    match u.replica_state with
    | some st => acc.2.2 ++ [st.group_id]
    | none => acc.2.2
  (s1, evs, changed)

/-- Embedding of `Root::report` (mod.rs lines 295-327): run the update loop,
then re-list all group states, retain those whose group id was recorded in
`changed_group_states`, push a `GroupState` update event for each retained
state after the loop's `Group` events, and notify the hub with all of
them. -/
def report (core : Option Schema) (updates : List GroupUpdates) :
    Except Error Unit × Option Schema × List UpdateEvent :=
  match schema core with
  | .error e => (.error e, core, [])
  | .ok s =>
    let fin := updates.foldl report_step (s, [], [])
    let states := fin.1.list_group_state.filter
      (fun st => fin.2.2.contains st.group_id)
    let update_events := fin.2.1 ++ states.map (fun st => ⟨some (.GroupState st)⟩)
    (.ok (), some fin.1, update_events)

/-- Environment of one LEADING term: the outcome of the `try_bootstrap`
store call (consulted only when the bootstrap flag is still unset) and the
outcomes of the successive `send_heartbeat` calls (entries missing from the
list stand for successful heartbeats). -/
structure LeaderEnv where
  try_bootstrap : Except Error Unit
  heartbeats : List (Except Error Unit)
deriving Repr

/-- Embedding of the heartbeat loop in `Root::step_leader` (mod.rs lines
168-171): `for _ in 0..1000 { self.send_heartbeat(..).await?; sleep(1s) }` —
runs the given number of iterations, short-circuiting on the first heartbeat
error. -/
def heartbeat_loop : List (Except Error Unit) → Nat → Except Error Unit
  | _, 0 => .ok ()
  | [], n + 1 => heartbeat_loop [] n
  | .ok _ :: rest, n + 1 => heartbeat_loop rest n
  | .error e :: _, _ + 1 => .error e

/-- Result of one `Root::step_leader` call: the returned `Result<()>`, the
value left in the shared core option at return, the final value of the
`bootstrapped` flag, and whether `try_bootstrap` was invoked during the
call. -/
structure StepResult where
  result : Except Error Unit
  core : Option Schema
  bootstrapped : Bool
  bootstrap_attempted : Bool
deriving Repr

/-- Shared tail of `step_leader` once the bootstrap check has passed
(mod.rs lines 160-179): install the fresh schema into the core, run the
1000-iteration heartbeat loop — on a heartbeat error the `?` operator
returns immediately, with the core still installed — and on normal
completion clear the core to `None` and return `Ok(())`. -/
def step_leader_rest (s : Schema) (attempted : Bool) (env : LeaderEnv) : StepResult :=
  match heartbeat_loop env.heartbeats 1000 with
  | .error e =>
    { result := .error e, core := some s, bootstrapped := true,
      bootstrap_attempted := attempted }
  | .ok _ =>
    { result := .ok (), core := none, bootstrapped := true,
      bootstrap_attempted := attempted }

/-- Embedding of `Root::step_leader` (mod.rs lines 142-180): build a fresh
schema over the leader replica's store; when the `bootstrapped` flag is
unset, invoke `try_bootstrap` — a failure returns via `?` before the core is
installed, leaving the flag unset — and set the flag on success; then fall
through to installing the core and running the heartbeat loop.  `core0` is
the value held in the shared core option at entry. -/
def step_leader (core0 : Option Schema) (bootstrapped : Bool)
    (env : LeaderEnv) (s : Schema) : StepResult :=
  match bootstrapped, env.try_bootstrap with
  | false, .error e =>
    { result := .error e, core := core0, bootstrapped := false,
      bootstrap_attempted := true }
  | false, .ok _ => step_leader_rest s true env
  | true, _ => step_leader_rest s false env

/-- One iteration of the outer driver loop in `Root::run` as seen from a
single election attempt: either the replica never became leader
(`on_leader()` failed) or it did, with the given term environment. -/
inductive TermEvent where
  | no_leader
  | leader (env : LeaderEnv)
deriving Repr

/-- State of the `Root::run` driver across terms: the process-lifetime
`bootstrapped` flag, the shared core option, a count of how many times
`try_bootstrap` has been invoked, and whether the driver has panicked — the
embedding of reaching `todo!("handle error: {}", err)` (mod.rs line 124),
which panics the task instead of continuing the loop. -/
structure RunState where
  bootstrapped : Bool
  core : Option Schema
  bootstrap_attempts : Nat
  panicked : Option Error
deriving Repr

/-- Embedding of one iteration of the loop in `Root::run` (mod.rs lines
110-128): a panicked driver does nothing further; when the replica fails to
become leader the loop just retries; when it leads, `step_leader` runs and
its result is matched — `Ok(())` and `Err(NotLeader)` continue the loop as a
follower, while any other error reaches `todo!(..)` and panics. -/
def run_step (s : Schema) (st : RunState) (ev : TermEvent) : RunState :=
  match st.panicked with
  | some _ => st
  | none =>
    match ev with
    | .no_leader => st
    | .leader env =>
      let r := step_leader st.core st.bootstrapped env s
      let attempts := st.bootstrap_attempts + (if r.bootstrap_attempted then 1 else 0)
      match r.result with
      | .ok _ =>
        { bootstrapped := r.bootstrapped, core := r.core,
          bootstrap_attempts := attempts, panicked := none }
      | .error .NotLeader =>
        { bootstrapped := r.bootstrapped, core := r.core,
          bootstrap_attempts := attempts, panicked := none }
      | .error e =>
        { bootstrapped := r.bootstrapped, core := r.core,
          bootstrap_attempts := attempts, panicked := some e }

/-- The `Root::run` driver over a finite prefix of election attempts. -/
def run_trace (s : Schema) (st : RunState) : List TermEvent → RunState
  | [] => st
  | ev :: rest => run_trace s (run_step s st ev) rest

end Root

/-- The group ids for which some update in a `report` call supplies a
replica state, in request order — the ids `mod.rs` accumulates into
`changed_group_states`. -/
def supplied_state_ids (updates : List GroupUpdates) : List Nat :=
  updates.filterMap (fun u => u.replica_state.map (fun st => st.group_id))

/-- The `Group` update events pushed by the loop of a `report` call, in
request order. -/
def group_desc_events (updates : List GroupUpdates) : List UpdateEvent :=
  updates.filterMap (fun u => u.group_desc.map (fun d => ⟨some (.Group d)⟩))

/-- A small concrete schema used by the concrete-input theorems: empty
metadata with the cluster id already persisted. -/
def sampleSchema : Schema :=
  { databases := [], collections := [], nodes := [], groups := [],
    group_states := [], next_id := 1, cluster_id := some [7],
    root_replicas := [] }

/-- Variant of `sampleSchema` with one stored group state, for the `report`
counterexample. -/
def reportSchema : Schema :=
  { sampleSchema with group_states := [⟨1, 5⟩] }

/-- Variant of `sampleSchema` with no persisted cluster id, for the `join`
panic theorem. -/
def noClusterSchema : Schema :=
  { sampleSchema with cluster_id := none }

/-- A schema with one registered node that also holds a root replica, for
the `join` theorems. -/
def joinSchema : Schema :=
  { databases := [], collections := [], nodes := [⟨1, "10.0.0.1:1"⟩],
    groups := [], group_states := [], next_id := 2, cluster_id := some [7],
    root_replicas := [⟨1, "10.0.0.1:1"⟩] }

/-- Claim C1 (code-bug exhibit): in the LEADING phase, when a
`send_heartbeat` call fails after `RootCore` has been installed, the `?`
operator in `step_leader` returns the error immediately and the shared core
option is still `some _` — it is not cleared to `None` on this exit path,
contradicting the claim (and the comment at mod.rs line 173) that RootCore
is cleared on every exit path including error paths. -/
theorem step_leader_error_exit_keeps_core :
    (Root.step_leader none true ⟨.ok (), [.error .NotLeader]⟩ sampleSchema).result
        = .error .NotLeader
      ∧ (Root.step_leader none true ⟨.ok (), [.error .NotLeader]⟩ sampleSchema).core
        = some sampleSchema :=
  ⟨rfl, rfl⟩

/-- Claim C4 (code-bug exhibit): when `step_leader` fails with an error that
is neither success nor `NotLeader` — here `try_bootstrap` failing with an
internal store error — the driver loop of `Root::run` reaches
`todo!("handle error: {}", err)` and panics instead of re-entering the
election loop. -/
theorem run_step_unexpected_error_panics :
    (Root.run_step sampleSchema ⟨false, none, 0, none⟩
        (.leader ⟨.error (.Internal "store write failed"), []⟩)).panicked
      = some (.Internal "store write failed") :=
  rfl

/-- Claim C5: with no `RootCore` installed (the shared core option is
`None`), every Root API method — create_database, delete_database,
create_collection, delete_collection, get_database, get_collection, watch,
join and report — fails with the `NotRootLeader` error, leaves the core
unchanged, touches no schema state, and pushes no event to the watcher
hub. -/
theorem api_requires_root_core (name database addr : String) (hub : WatchHub)
    (cur_groups : List (Nat × Nat)) (updates : List GroupUpdates) :
    Root.create_database none name = (.error .NotRootLeader, none, [])
      ∧ Root.delete_database none name = (.error .NotRootLeader, none, [])
      ∧ Root.create_collection none name database = (.error .NotRootLeader, none, [])
      ∧ Root.delete_collection none name database = (.error .NotRootLeader, none, [])
      ∧ Root.get_database none name = .error .NotRootLeader
      ∧ Root.get_collection none name database = .error .NotRootLeader
      ∧ Root.watch none hub cur_groups = (.error .NotRootLeader, hub)
      ∧ Root.join none addr = (.err .NotRootLeader, none, [])
      ∧ Root.report none updates = (.error .NotRootLeader, none, []) :=
  ⟨rfl, rfl, rfl, rfl, rfl, rfl, rfl, rfl, rfl⟩

/-- Claim C6: `create_collection` against a database name that does not
exist fails with `DatabaseNotFound` naming that database, creates no
collection (the core and its schema are unchanged), and pushes no update
event to the watcher hub. -/
theorem create_collection_missing_database_fails (s : Schema)
    (name database : String) (h : s.get_database database = none) :
    Root.create_collection (some s) name database
      = (.error (.DatabaseNotFound database), some s, []) := by
  simp [Root.create_collection, Root.schema, h]

/-- Witness for `create_collection_missing_database_fails` at a concrete
input: `sampleSchema` holds no databases. -/
theorem create_collection_missing_database_fails_witness :
    sampleSchema.get_database "missing" = none
      ∧ Root.create_collection (some sampleSchema) "c1" "missing"
          = (.error (.DatabaseNotFound "missing"), some sampleSchema, []) :=
  ⟨rfl, create_collection_missing_database_fails sampleSchema "c1" "missing" rfl⟩

/-- Claim C3 (counterexample): deleting an absent database is not a silent
no-op — on a schema with no databases, `delete_database("missing")` returns
a `DatabaseNotFound` error rather than success. -/
theorem delete_database_absent_errors :
    (Root.delete_database (some sampleSchema) "missing").1
        = .error (.DatabaseNotFound "missing")
      ∧ (Root.delete_database (some sampleSchema) "missing").1 ≠ .ok () := by
  refine ⟨rfl, ?_⟩
  intro h
  exact Except.noConfusion h

/-- Claim C3 (amended): deleting an absent collection succeeds without
error, leaves the schema unchanged and emits no event, while deleting an
absent database fails with `DatabaseNotFound`, leaves the schema unchanged
and emits no event — `Root::delete_database` pushes a delete event after
every successful schema delete, so it can never succeed silently. -/
theorem delete_absent_resource (s : Schema) (name database : String)
    (hdb : s.get_database name = none)
    (hcol : s.get_collection database name = none) :
    Root.delete_database (some s) name
        = (.error (.DatabaseNotFound name), some s, [])
      ∧ Root.delete_collection (some s) name database = (.ok (), some s, []) := by
  constructor
  · simp [Root.delete_database, Root.schema, Schema.delete_database, hdb]
  · simp [Root.delete_collection, Root.schema, hcol]

/-- Witness for `delete_absent_resource` at a concrete input: `sampleSchema`
holds no databases and no collections. -/
theorem delete_absent_resource_witness :
    sampleSchema.get_database "missing" = none
      ∧ sampleSchema.get_collection "missingdb" "missing" = none
      ∧ Root.delete_database (some sampleSchema) "missing"
          = (.error (.DatabaseNotFound "missing"), some sampleSchema, [])
      ∧ Root.delete_collection (some sampleSchema) "missing" "missingdb"
          = (.ok (), some sampleSchema, []) :=
  ⟨rfl, rfl,
    (delete_absent_resource sampleSchema "missing" "missingdb" rfl rfl).1,
    (delete_absent_resource sampleSchema "missing" "missingdb" rfl rfl).2⟩

/-- Claim C10: `join` has the implicit precondition that bootstrap has
persisted the cluster id — with a `RootCore` installed whose schema has no
cluster id, `join` reaches `unwrap()` on `None` and panics instead of
returning an error. -/
theorem join_panics_when_cluster_id_absent (s : Schema) (addr : String)
    (h : s.cluster_id = none) :
    (Root.join (some s) addr).1 = .panic := by
  simp [Root.join, Root.schema, Schema.add_node, h]

/-- Witness for `join_panics_when_cluster_id_absent` at a concrete input. -/
theorem join_panics_when_cluster_id_absent_witness :
    noClusterSchema.cluster_id = none
      ∧ (Root.join (some noClusterSchema) "10.0.0.2:2").1 = .panic :=
  ⟨rfl, join_panics_when_cluster_id_absent noClusterSchema "10.0.0.2:2" rfl⟩

set_option maxRecDepth 8192 in
/-- Claim C7 (counterexample): `try_bootstrap` is not invoked at most once
per process — when the first leadership term's `try_bootstrap` fails with
`NotLeader` (the flag is only set after a successful attempt), the driver
continues and the next term invokes `try_bootstrap` again: after two such
terms the invocation count is 2 and the driver has not panicked. -/
theorem try_bootstrap_attempted_twice :
    (Root.run_trace sampleSchema ⟨false, none, 0, none⟩
        [.leader ⟨.error .NotLeader, []⟩, .leader ⟨.ok (), []⟩]).bootstrap_attempts = 2
      ∧ (Root.run_trace sampleSchema ⟨false, none, 0, none⟩
          [.leader ⟨.error .NotLeader, []⟩, .leader ⟨.ok (), []⟩]).panicked = none :=
  ⟨rfl, rfl⟩

/-- Claim C7 (amended): `try_bootstrap` is attempted on every leadership
acquisition until one attempt succeeds — the process-lifetime `bootstrapped`
flag is set only by a successful attempt — and once the flag is set it stays
set and `try_bootstrap` is never invoked again in later terms. -/
theorem try_bootstrap_gated_by_success_flag (s : Schema) (st : Root.RunState)
    (env : Root.LeaderEnv) (hp : st.panicked = none) :
    (st.bootstrapped = true →
        (Root.run_step s st (.leader env)).bootstrap_attempts
            = st.bootstrap_attempts
          ∧ (Root.run_step s st (.leader env)).bootstrapped = true)
      ∧ (st.bootstrapped = false →
        (Root.run_step s st (.leader env)).bootstrap_attempts
            = st.bootstrap_attempts + 1
          ∧ ((Root.run_step s st (.leader env)).bootstrapped = true
              ↔ env.try_bootstrap = .ok ())) := by
  obtain ⟨b, core, k, p⟩ := st
  simp only [Root.RunState.panicked] at hp
  subst hp
  cases b
  · refine ⟨fun h => Bool.noConfusion h, fun _ => ?_⟩
    cases henv : env.try_bootstrap with
    | error e =>
      cases e <;>
        simp [Root.run_step, Root.step_leader, henv]
    | ok u =>
      cases u
      cases hhb : Root.heartbeat_loop env.heartbeats 1000 with
      | error e =>
        cases e <;>
          simp [Root.run_step, Root.step_leader, Root.step_leader_rest, henv, hhb]
      | ok u =>
        cases u
        simp [Root.run_step, Root.step_leader, Root.step_leader_rest, henv, hhb]
  · refine ⟨fun _ => ?_, fun h => Bool.noConfusion h⟩
    cases hhb : Root.heartbeat_loop env.heartbeats 1000 with
    | error e =>
      cases e <;>
        simp [Root.run_step, Root.step_leader, Root.step_leader_rest, hhb]
    | ok u =>
      cases u
      simp [Root.run_step, Root.step_leader, Root.step_leader_rest, hhb]

/-- Witness for `try_bootstrap_gated_by_success_flag` at a concrete input:
a not-yet-bootstrapped driver state and a term whose `try_bootstrap`
succeeds. -/
theorem try_bootstrap_gated_by_success_flag_witness :
    (⟨false, none, 0, none⟩ : Root.RunState).panicked = none
      ∧ (Root.run_step sampleSchema ⟨false, none, 0, none⟩
            (.leader ⟨.ok (), []⟩)).bootstrap_attempts = 0 + 1 :=
  ⟨rfl, ((try_bootstrap_gated_by_success_flag sampleSchema ⟨false, none, 0, none⟩
      ⟨.ok (), []⟩ rfl).2 rfl).1⟩

/-- Claim C8: every watcher receives every event batch published after its
registration, in publication order and without loss: for any hub state in
which watcher `i` is registered and any subsequent operation sequence, the
watcher's delivered queue is its previous queue extended by exactly the
published batches, in order.  In the claim's scenario — w1 created,
notify(batchA), w2 created, notify(batchB) — this yields queue [A, B] for w1
and [B] for w2. -/
theorem watcher_receives_batches_after_registration (ops : List WatchHub.Op) :
    ∀ (h : WatchHub) (i : Nat), i < h.queues.length →
      (WatchHub.runOps h ops).queues[i]?
        = some (h.queues.getD i [] ++ WatchHub.published ops) := by
  induction ops with
  | nil =>
    intro h i hi
    rw [List.getD_eq_getElem _ _ hi]
    simp [WatchHub.runOps, WatchHub.published, List.getElem?_eq_getElem hi]
  | cons op rest ih =>
    intro h i hi
    cases op with
    | create =>
      have hlen : (WatchHub.create_watcher h).1.queues.length
          = h.queues.length + 1 := by
        simp [WatchHub.create_watcher]
      have hi' : i < (WatchHub.create_watcher h).1.queues.length := by omega
      have hres := ih (WatchHub.create_watcher h).1 i hi'
      have hgetD : (WatchHub.create_watcher h).1.queues.getD i []
          = h.queues.getD i [] := by
        show (h.queues ++ [[]]).getD i [] = h.queues.getD i []
        exact List.getD_append _ _ _ _ hi
      rw [show WatchHub.runOps h (.create :: rest)
            = WatchHub.runOps (WatchHub.create_watcher h).1 rest from rfl,
        hres, hgetD]
      simp [WatchHub.published]
    | notify b =>
      have hlen : (WatchHub.notify_updates h b).queues.length
          = h.queues.length := by
        simp [WatchHub.notify_updates]
      have hi' : i < (WatchHub.notify_updates h b).queues.length := by omega
      have hres := ih (WatchHub.notify_updates h b) i hi'
      have hgetD : (WatchHub.notify_updates h b).queues.getD i []
          = h.queues.getD i [] ++ [(b, [])] := by
        rw [List.getD_eq_getElem _ _ hi', List.getD_eq_getElem _ _ hi]
        simp [WatchHub.notify_updates]
      rw [show WatchHub.runOps h (.notify b :: rest)
            = WatchHub.runOps (WatchHub.notify_updates h b) rest from rfl,
        hres, hgetD]
      simp [WatchHub.published]

/-- Witness for `watcher_receives_batches_after_registration`, instantiating
the claim's scenario: watcher w1 is created on an empty hub and then sees
the remaining operations `[notify A, create w2, notify B]`, receiving
`[A, B]`; watcher w2 is created on the hub in which w1 has already received
A and then sees `[notify B]`, receiving `[B]` only. -/
theorem watcher_scenario_witness :
    (0 : Nat) < (⟨[[]]⟩ : WatchHub).queues.length
      ∧ (WatchHub.runOps ⟨[[]]⟩
            [.notify [⟨some (.Database ⟨1, "db1"⟩)⟩], .create,
              .notify [⟨some (.Database ⟨2, "db2"⟩)⟩]]).queues[0]?
          = some ((⟨[[]]⟩ : WatchHub).queues.getD 0 []
              ++ WatchHub.published
                [.notify [⟨some (.Database ⟨1, "db1"⟩)⟩], .create,
                  .notify [⟨some (.Database ⟨2, "db2"⟩)⟩]])
      ∧ (1 : Nat) < (⟨[[([⟨some (.Database ⟨1, "db1"⟩)⟩], [])], []]⟩
            : WatchHub).queues.length
      ∧ (WatchHub.runOps ⟨[[([⟨some (.Database ⟨1, "db1"⟩)⟩], [])], []]⟩
            [.notify [⟨some (.Database ⟨2, "db2"⟩)⟩]]).queues[1]?
          = some ((⟨[[([⟨some (.Database ⟨1, "db1"⟩)⟩], [])], []]⟩
                : WatchHub).queues.getD 1 []
              ++ WatchHub.published
                [.notify [⟨some (.Database ⟨2, "db2"⟩)⟩]]) :=
  ⟨by decide,
    watcher_receives_batches_after_registration
      [.notify [⟨some (.Database ⟨1, "db1"⟩)⟩], .create,
        .notify [⟨some (.Database ⟨2, "db2"⟩)⟩]] ⟨[[]]⟩ 0 (by decide),
    by decide,
    watcher_receives_batches_after_registration
      [.notify [⟨some (.Database ⟨2, "db2"⟩)⟩]]
      ⟨[[([⟨some (.Database ⟨1, "db1"⟩)⟩], [])], []]⟩ 1 (by decide)⟩

/-- If some entry of `l` carries the given node id, `move_first` puts an
entry with that id at the head of the list. -/
theorem move_first_head (l : List NodeDesc) (id : Nat) (r : NodeDesc)
    (hr : r ∈ l) (hid : r.id = id) :
    ∃ r0 tl, Schema.move_first l id = r0 :: tl ∧ r0.id = id := by
  unfold Schema.move_first
  cases hfind : l.find? (fun n => n.id = id) with
  | none =>
    exfalso
    have hnone := List.find?_eq_none.mp hfind r hr
    simp [hid] at hnone
  | some n =>
    refine ⟨n, l.filter (fun x => x.id ≠ id), rfl, ?_⟩
    have hsat := List.find?_some hfind
    simpa using hsat

/-- Claim C9: a successful `join(addr)` registers a node under an id used by
no previously registered node, pushes exactly one `Node` update event, and
returns the persisted cluster id, the new node descriptor, and the
root-replica list reordered by `move_first`, which places the joining
node's own entry first whenever it holds a root replica. -/
theorem join_assigns_fresh_id_and_reorders_roots (s : Schema) (addr : String)
    (cid : List Nat) (hwf : ∀ n ∈ s.nodes, n.id < s.next_id)
    (hcid : s.cluster_id = some cid) :
    ∃ node : NodeDesc,
      node.addr = addr
        ∧ (∀ m ∈ s.nodes, m.id ≠ node.id)
        ∧ Root.join (some s) addr
            = (.ok cid node (Schema.move_first s.root_replicas node.id),
                some { s with
                       nodes := s.nodes ++ [node],
                       next_id := s.next_id + 1 },
                [⟨some (.Node node)⟩])
        ∧ (∀ r ∈ s.root_replicas, r.id = node.id →
            ∃ r0 tl, Schema.move_first s.root_replicas node.id = r0 :: tl
              ∧ r0.id = node.id) := by
  refine ⟨⟨s.next_id, addr⟩, rfl, ?_, ?_, ?_⟩
  · intro m hm
    exact Nat.ne_of_lt (hwf m hm)
  · simp [Root.join, Root.schema, Schema.add_node, Schema.get_root_replicas, hcid]
  · intro r hr hid
    exact move_first_head s.root_replicas s.next_id r hr hid

/-- Witness for `join_assigns_fresh_id_and_reorders_roots` at a concrete
input: a schema with one registered node (id 1) holding a root replica and
the cluster id persisted. -/
theorem join_assigns_fresh_id_and_reorders_roots_witness :
    (∀ n ∈ joinSchema.nodes, n.id < joinSchema.next_id)
      ∧ joinSchema.cluster_id = some [7]
      ∧ ∃ node : NodeDesc,
          node.addr = "10.0.0.2:2"
            ∧ (∀ m ∈ joinSchema.nodes, m.id ≠ node.id)
            ∧ Root.join (some joinSchema) "10.0.0.2:2"
                = (.ok [7] node
                      (Schema.move_first joinSchema.root_replicas node.id),
                    some { joinSchema with
                           nodes := joinSchema.nodes ++ [node],
                           next_id := joinSchema.next_id + 1 },
                    [⟨some (.Node node)⟩])
            ∧ (∀ r ∈ joinSchema.root_replicas, r.id = node.id →
                ∃ r0 tl,
                  Schema.move_first joinSchema.root_replicas node.id = r0 :: tl
                    ∧ r0.id = node.id) :=
  ⟨by decide, rfl,
    join_assigns_fresh_id_and_reorders_roots joinSchema "10.0.0.2:2" [7]
      (by decide) rfl⟩

/-- Storing a replica state replaces any previous entry for its group id
and appends the new one; the group-descriptor half never touches
`group_states`. -/
theorem update_group_replica_group_states (sc : Schema) (gd : Option GroupDesc)
    (st0 : ReplicaState) :
    (sc.update_group_replica gd (some st0)).group_states
      = sc.group_states.filter (fun x => x.group_id ≠ st0.group_id) ++ [st0] := by
  cases gd <;> rfl

/-- An update carrying no replica state leaves `group_states` unchanged. -/
theorem update_group_replica_group_states_none (sc : Schema)
    (gd : Option GroupDesc) :
    (sc.update_group_replica gd none).group_states = sc.group_states := by
  cases gd <;> rfl

/-- After storing a replica state, a group id occurs among the stored group
states iff it occurred before or it is the stored state's id. -/
theorem update_group_replica_state_ids (sc : Schema) (gd : Option GroupDesc)
    (st0 : ReplicaState) (g : Nat) :
    (∃ st ∈ (sc.update_group_replica gd (some st0)).group_states,
        st.group_id = g)
      ↔ ((∃ st ∈ sc.group_states, st.group_id = g) ∨ g = st0.group_id) := by
  rw [update_group_replica_group_states]
  constructor
  · rintro ⟨st, hmem, hid⟩
    rcases List.mem_append.mp hmem with hf | hs
    · exact Or.inl ⟨st, (List.mem_filter.mp hf).1, hid⟩
    · rcases List.mem_singleton.mp hs with rfl
      exact Or.inr hid.symm
  · rintro (⟨st, hmem, hid⟩ | hid)
    · by_cases hg : st.group_id = st0.group_id
      · exact ⟨st0, List.mem_append.mpr (Or.inr (List.mem_singleton.mpr rfl)),
          hg.symm.trans hid⟩
      · refine ⟨st, List.mem_append.mpr (Or.inl (List.mem_filter.mpr
          ⟨hmem, ?_⟩)), hid⟩
        simp [hg]
    · exact ⟨st0, List.mem_append.mpr (Or.inr (List.mem_singleton.mpr rfl)),
        hid.symm⟩

/-- The changed-ids accumulator of the `report` loop collects exactly the
supplied replica-state group ids, in order. -/
theorem report_fold_changed (updates : List GroupUpdates) :
    ∀ (sc : Schema) (evs : List UpdateEvent) (ch : List Nat),
      (updates.foldl Root.report_step (sc, evs, ch)).2.2
        = ch ++ supplied_state_ids updates := by
  induction updates with
  | nil =>
    intro sc evs ch
    simp [supplied_state_ids]
  | cons u rest ih =>
    intro sc evs ch
    rw [List.foldl_cons]
    cases hgd : u.group_desc <;> cases hrs : u.replica_state <;>
      simp [Root.report_step, hgd, hrs, ih, supplied_state_ids,
        List.filterMap_cons, List.append_assoc]

/-- The event accumulator of the `report` loop collects exactly the `Group`
events of the supplied group descriptors, in order. -/
theorem report_fold_events (updates : List GroupUpdates) :
    ∀ (sc : Schema) (evs : List UpdateEvent) (ch : List Nat),
      (updates.foldl Root.report_step (sc, evs, ch)).2.1
        = evs ++ group_desc_events updates := by
  induction updates with
  | nil =>
    intro sc evs ch
    simp [group_desc_events]
  | cons u rest ih =>
    intro sc evs ch
    rw [List.foldl_cons]
    cases hgd : u.group_desc <;> cases hrs : u.replica_state <;>
      simp [Root.report_step, hgd, hrs, ih, group_desc_events,
        List.filterMap_cons, List.append_assoc]

/-- After the `report` loop, a group id occurs among the stored group
states iff it occurred in the initial schema or a replica state was
supplied for it. -/
theorem report_fold_state_ids (updates : List GroupUpdates) :
    ∀ (sc : Schema) (evs : List UpdateEvent) (ch : List Nat) (g : Nat),
      (∃ st ∈ (updates.foldl Root.report_step (sc, evs, ch)).1.group_states,
          st.group_id = g)
        ↔ ((∃ st ∈ sc.group_states, st.group_id = g)
            ∨ g ∈ supplied_state_ids updates) := by
  induction updates with
  | nil =>
    intro sc evs ch g
    simp [supplied_state_ids]
  | cons u rest ih =>
    intro sc evs ch g
    rw [List.foldl_cons]
    cases hgd : u.group_desc <;> cases hrs : u.replica_state <;>
      simp [Root.report_step, hgd, hrs, ih, update_group_replica_state_ids,
        update_group_replica_group_states_none, supplied_state_ids,
        List.filterMap_cons, or_assoc]

/-- No `GroupState` event is among the `Group` events generated from the
supplied group descriptors. -/
theorem groupstate_not_in_group_desc_events (updates : List GroupUpdates)
    (st : ReplicaState) :
    (⟨some (.GroupState st)⟩ : UpdateEvent) ∉ group_desc_events updates := by
  intro hmem
  rcases List.mem_filterMap.mp hmem with ⟨u, _, hu⟩
  cases hgd : u.group_desc <;> rw [hgd] at hu <;> simp at hu

/-- Claim C2 (amended): `report(updates)` emits a `GroupState` update event
for a group id `g` iff some update in the call supplied a replica state for
`g` — exactly the ids written by the call, whether or not the stored replica
state actually changed — and in particular never for an id whose updates
supplied only a group descriptor. -/
theorem report_groupstate_events_iff_state_supplied (s : Schema)
    (updates : List GroupUpdates) (g : Nat) :
    (∃ st : ReplicaState, st.group_id = g
        ∧ (⟨some (.GroupState st)⟩ : UpdateEvent)
            ∈ (Root.report (some s) updates).2.2)
      ↔ g ∈ supplied_state_ids updates := by
  have hch : (updates.foldl Root.report_step (s, [], [])).2.2
      = supplied_state_ids updates := by
    simpa using report_fold_changed updates s [] []
  have hev : (updates.foldl Root.report_step (s, [], [])).2.1
      = group_desc_events updates := by
    simpa using report_fold_events updates s [] []
  have hout : (Root.report (some s) updates).2.2
      = (updates.foldl Root.report_step (s, [], [])).2.1
          ++ ((updates.foldl Root.report_step (s, [], [])).1.group_states.filter
              (fun st =>
                (updates.foldl Root.report_step (s, [], [])).2.2.contains
                  st.group_id)).map
              (fun st => (⟨some (.GroupState st)⟩ : UpdateEvent)) := rfl
  constructor
  · rintro ⟨st, hid, hmem⟩
    rw [hout] at hmem
    rcases List.mem_append.mp hmem with hl | hr
    · rw [hev] at hl
      exact absurd hl (groupstate_not_in_group_desc_events updates st)
    · rcases List.mem_map.mp hr with ⟨st1, hst1, heq⟩
      have hst : st1 = st := by simpa using heq
      subst hst
      have hfil := List.mem_filter.mp hst1
      have hcont := hfil.2
      rw [hch] at hcont
      have hmem2 : st1.group_id ∈ supplied_state_ids updates := by
        simpa using hcont
      exact hid ▸ hmem2
  · intro hg
    rcases (report_fold_state_ids updates s [] [] g).mpr (Or.inr hg) with
      ⟨st, hmem, hid⟩
    refine ⟨st, hid, ?_⟩
    rw [hout]
    refine List.mem_append.mpr (Or.inr (List.mem_map.mpr ⟨st, ?_, rfl⟩))
    refine List.mem_filter.mpr ⟨hmem, ?_⟩
    rw [hch]
    simpa [hid] using hg

/-- Claim C2 (counterexample): on a schema already holding group state
(group 1, payload 5), a `report` whose single update supplies that same
replica state leaves the schema completely unchanged — the replica state of
group 1 did not change — yet a `GroupState` update event for group 1 is
emitted, because `mod.rs` records an id as changed whenever a replica state
is merely present in the request. -/
theorem report_event_for_unchanged_replica_state :
    (Root.report (some reportSchema) [⟨none, some ⟨1, 5⟩⟩]).2.1
        = some reportSchema
      ∧ (Root.report (some reportSchema) [⟨none, some ⟨1, 5⟩⟩]).2.2
          = [⟨some (.GroupState ⟨1, 5⟩)⟩] :=
  ⟨rfl, rfl⟩

end Engula
